import Mathlib

/-!
Verification of `dingyue_check`, a Telegram bot that checks proxy
subscription links.  The Python modules `parser.py`, `geo_service.py`,
`node_extractor.py` and `retry_utils.py` are embedded shallowly below:
Python strings become `String` (operated on through their code-point
lists `List Char`), dictionaries with a fixed key set become structures
with `Option` fields, and an uncaught Python exception becomes `none`
(resp. `Except.error`).  External effects (the HTTP geo API, the random
of the network) are passed in as function parameters so that theorems
can quantify over them.
-/

/-! ## Python string primitives on code-point lists -/

/-- Python `str.split(c)` for a one-character separator: splitting an
empty string yields `[""]`, adjacent separators yield empty groups. -/
def splitOnChar (c : Char) : List Char → List (List Char)
  | [] => [[]]
  | x :: xs =>
    if x = c then [] :: splitOnChar c xs
    else
      match splitOnChar c xs with
      | g :: gs => (x :: g) :: gs
      | [] => [[x]]

/-- Python `str.strip()`: drop whitespace from both ends. -/
def trimChars (l : List Char) : List Char :=
  ((l.dropWhile Char.isWhitespace).reverse.dropWhile Char.isWhitespace).reverse

/-- Python `sub in s` substring containment. -/
def containsSeq (pat : List Char) : List Char → Bool
  | [] => pat.isPrefixOf []
  | x :: xs => pat.isPrefixOf (x :: xs) || containsSeq pat xs

/-- Python `s.split(c, 1)` when `c` occurs: the part before the first
occurrence of `c` and the part after it. -/
def breakAt (c : Char) : List Char → Option (List Char × List Char)
  | [] => none
  | x :: xs =>
    if x = c then some ([], xs)
    else (breakAt c xs).map (fun p => (x :: p.1, p.2))

/-- Numeric value of a digit string. -/
def natOfDigits : List Char → Nat :=
  List.foldl (fun n c => n * 10 + (c.toNat - 48)) 0

/-- The digits of a non-empty all-digit string, `none` otherwise. -/
def digitsVal? (ds : List Char) : Option Nat :=
  if ds.isEmpty then none
  else if ds.all Char.isDigit then some (natOfDigits ds) else none

/-- Python `int(str)`: optional surrounding whitespace, optional sign,
then a non-empty run of decimal digits; anything else raises, which is
modelled by `none`. -/
def parseIntChars (l : List Char) : Option Int :=
  match trimChars l with
  | '-' :: rest => (digitsVal? rest).map (fun n => -(n : Int))
  | '+' :: rest => (digitsVal? rest).map (fun n => (n : Int))
  | l' => (digitsVal? l').map (fun n => (n : Int))

/-! ## `node_extractor.py` -/

/-- A parsed node.  In the Python code a node is a dict: nodes decoded
from scheme-prefixed lines carry `protocol`, `name` and `raw`, while
nodes from a Clash YAML `proxies` list additionally carry `server` and
`port` keys.  `server = none` models the absence of the `server` key. -/
structure Node where
  name : String
  protocol : String
  raw : String := ""
  server : Option String := none
  port : Option Nat := none
deriving Repr, DecidableEq

/-- A character allowed inside a hostname label: `[a-zA-Z0-9-]`. -/
def isLabelChar (c : Char) : Bool := c.isAlphanum || c = '-'

/-- One hostname label, per the regex
`[a-zA-Z0-9]([a-zA-Z0-9-]{0,61}[a-zA-Z0-9])?` of
`NodeIPExtractor.is_valid_ip`: alphanumeric ends, interior of
alphanumerics and hyphens, at most 63 characters. -/
def validLabel (l : List Char) : Bool :=
  match l with
  | [] => false
  | [c] => c.isAlphanum
  | c :: cs =>
    c.isAlphanum && decide (l.length ≤ 63) && cs.dropLast.all isLabelChar &&
      (match cs.getLast? with
       | some d => d.isAlphanum
       | none => false)

/-- `NodeIPExtractor.is_valid_ip`: an empty string is invalid; a string
matching `^(\d{1,3}\.){3}\d{1,3}$` is valid iff every octet is at most
255 (with no fallthrough to the hostname check); otherwise the string is
valid iff it is a dot-separated sequence of valid hostname labels. -/
def is_valid_ip (ip : String) : Bool :=
  let l := ip.data
  if l.isEmpty then false
  else
    let parts := splitOnChar '.' l
    if parts.length = 4 &&
        parts.all (fun p => 1 ≤ p.length && p.length ≤ 3 && p.all Char.isDigit) then
      parts.all (fun p => natOfDigits p ≤ 255)
    else
      parts.all validLabel

/-- `NodeIPExtractor.extract_ip`: a node carrying a `server` key (the
Clash YAML shape) yields that value directly; for the other shapes the
per-protocol decoders (base64 / JSON / regex over the raw URI) are
abstracted as the parameter `protoExtract`. -/
def extract_ip (protoExtract : Node → Option String) (node : Node) : Option String :=
  match node.server with
  | some s => some s
  | none => protoExtract node

/-! ## `geo_service.py` -/

/-- A geo lookup answer, the dict
`{'country', 'city', 'isp', 'country_code'}` built by
`GeoLocationService.get_location` from a successful API response. -/
structure GeoLoc where
  country : String
  city : String
  isp : String
  country_code : String
deriving Repr, DecidableEq

/-- Outcome of one `get_location` call: the answer, the cache
afterwards, and whether the external API was contacted. -/
structure GeoResult where
  result : Option GeoLoc
  cache : List (String × GeoLoc)
  fetched : Bool
deriving Repr, DecidableEq

/-- `GeoLocationService.get_location`.  The cache is the insertion-
ordered dict `self.cache`; `fetch ip` abstracts the HTTP request to
`ip-api.com`, returning `some loc` on a `status == 'success'` response
and `none` on failure, non-success status or exception.  Empty or
`"unknown"` inputs short-circuit; a cached key is answered without any
external call; a successful fresh lookup is appended to the cache. -/
def get_location (fetch : String → Option GeoLoc) (cache : List (String × GeoLoc))
    (ip : String) : GeoResult :=
  if ip.data.isEmpty || ip = "unknown" then ⟨none, cache, false⟩
  else
    match cache.lookup ip with
    | some loc => ⟨some loc, cache, false⟩
    | none =>
      match fetch ip with
      | some loc => ⟨some loc, cache ++ [(ip, loc)], true⟩
      | none => ⟨none, cache, true⟩

/-- `GeoLocationService.get_country_flag`: two-letter codes are mapped
to regional-indicator code points (`ord(c) + 127397` after upcasing),
everything else to the globe emoji. -/
def get_country_flag (cc : String) : String :=
  if cc.data.isEmpty || cc.data.length ≠ 2 then "🌐"
  else String.mk (cc.data.map (fun c => Char.ofNat (c.toUpper.toNat + 127397)))

/-! ## `parser.py`: node decoding -/

/-- The scheme prefixes recognised by `SubscriptionParser._parse_node_line`,
in the order the Python loop tries them. -/
def protocols : List String :=
  ["vmess://", "vless://", "ss://", "ssr://", "trojan://", "hysteria://", "hysteria2://"]

/-- Python `str.replace('://', '')`: remove every occurrence of `://`,
scanning left to right. -/
def removeColonSlashSlash : List Char → List Char
  | ':' :: '/' :: '/' :: rest => removeColonSlashSlash rest
  | x :: rest => x :: removeColonSlashSlash rest
  | [] => []

/-- The loop of `_parse_node_line`: the first prefix of the list that
the line starts with. -/
def findProto : List String → List Char → Option String
  | [], _ => none
  | p :: ps, l => if p.data.isPrefixOf l then some p else findProto ps l

/-- `SubscriptionParser._extract_node_name`: the part after the first
`#`, URL-unquoted (the percent decoder is abstracted as `unq`) and
stripped; with no `#`, a `vmess` line falls back to the `ps` field of
its base64/JSON payload (abstracted as `vmessPs`); otherwise the
literal `"未命名节点"`. -/
def extract_node_name (unq : String → String) (vmessPs : String → Option String)
    (line : String) (protocol : String) : String :=
  match breakAt '#' line.data with
  | some (_, after) => String.mk (trimChars (unq (String.mk after)).data)
  | none =>
    if protocol = "vmess://" then
      match vmessPs line with
      | some ps => ps
      | none => "未命名节点"
    else "未命名节点"

/-- `SubscriptionParser._parse_node_line`: try each supported scheme
prefix in order; on a match build the node dict with the prefix minus
`://` as protocol tag, otherwise return `None`. -/
def parse_node_line (unq : String → String) (vmessPs : String → Option String)
    (line : String) : Option Node :=
  match findProto protocols line.data with
  | some p =>
    some { protocol := String.mk (removeColonSlashSlash p.data)
           name := extract_node_name unq vmessPs line p
           raw := line }
  | none => none

/-- `MAX_NODES` of `SubscriptionParser._parse_nodes`. -/
def MAX_NODES : Nat := 300

/-- An element of a Clash YAML `proxies` list that is a dict; absent
keys are `none` (the Python code supplies defaults via `.get`). -/
structure ProxyDict where
  name : Option String := none
  type : Option String := none
  server : Option String := none
  port : Option Nat := none
deriving Repr, DecidableEq

/-- The node dict built from one `proxies` entry by `_parse_nodes`. -/
def yamlNode (d : ProxyDict) : Node :=
  { name := d.name.getD "未知节点"
    protocol := (d.type.getD "unknown").toLower
    server := some (d.server.getD "")
    port := some (d.port.getD 0) }

/-- The Clash-YAML loop of `_parse_nodes` over the decoded `proxies`
list (`none` entries model list items that are not dicts and are
skipped): stop as soon as `MAX_NODES` nodes were collected. -/
def parseProxiesLoop (nodes : List Node) : List (Option ProxyDict) → List Node
  | [] => nodes
  | p :: rest =>
    if MAX_NODES ≤ nodes.length then nodes
    else
      match p with
      | some d => parseProxiesLoop (nodes ++ [yamlNode d]) rest
      | none => parseProxiesLoop nodes rest

/-- `_parse_nodes` on a Clash YAML config whose `proxies` key holds the
given list. -/
def parse_nodes_proxies (proxies : List (Option ProxyDict)) : List Node :=
  parseProxiesLoop [] proxies

/-- The line loop of `_parse_nodes`: stop at `MAX_NODES` nodes, strip
each line, skip blank lines, keep the lines `_parse_node_line` accepts. -/
def parseLinesLoop (unq : String → String) (vmessPs : String → Option String)
    (nodes : List Node) : List (List Char) → List Node
  | [] => nodes
  | l :: rest =>
    if MAX_NODES ≤ nodes.length then nodes
    else
      let l' := trimChars l
      if l'.isEmpty then parseLinesLoop unq vmessPs nodes rest
      else
        match parse_node_line unq vmessPs (String.mk l') with
        | some node => parseLinesLoop unq vmessPs (nodes ++ [node]) rest
        | none => parseLinesLoop unq vmessPs nodes rest

/-- `_parse_nodes` on plain text content (the path taken when the body
is not a Clash config; base64-looking bodies are decoded first in
Python, after which the same loop runs on the decoded text): strip the
content, split it into lines, and run the capped line loop. -/
def parse_nodes_lines (unq : String → String) (vmessPs : String → Option String)
    (content : String) : List Node :=
  parseLinesLoop unq vmessPs [] (splitOnChar '\n' (trimChars content.data))

/-! ## `parser.py`: traffic information -/

/-- The dict built by `SubscriptionParser._parse_traffic_info`; every
key may be absent. -/
structure TrafficInfo where
  upload : Option Int := none
  download : Option Int := none
  total : Option Int := none
  expire_time : Option String := none
  used : Option Int := none
  remaining : Option Int := none
  usage_percent : Option ℚ := none
deriving Repr, DecidableEq

/-- One iteration of the `subscription-userinfo` loop: strip the part,
require a `=`, strip key and value; `upload`/`download`/`total` store
`int(value)` whose failure is an uncaught `ValueError` (modelled as
`none`); `expire` converts inside `try`/`except`, so both a bad integer
and a failing calendar rendering (`render`, abstracting
`datetime.fromtimestamp(...).strftime(...)`) are silently dropped. -/
def applyPart (render : Int → Option String) (ti : TrafficInfo) (part : List Char) :
    Option TrafficInfo :=
  match breakAt '=' (trimChars part) with
  | none => some ti
  | some (k, v) =>
    if trimChars k = "upload".data then
      (parseIntChars (trimChars v)).map (fun n => { ti with upload := some n })
    else if trimChars k = "download".data then
      (parseIntChars (trimChars v)).map (fun n => { ti with download := some n })
    else if trimChars k = "total".data then
      (parseIntChars (trimChars v)).map (fun n => { ti with total := some n })
    else if trimChars k = "expire".data then
      match parseIntChars (trimChars v) with
      | some ts =>
        match render ts with
        | some s => some { ti with expire_time := some s }
        | none => some ti
      | none => some ti
    else some ti

/-- The derived fields computed after the loop: `used` when both
`upload` and `download` are present, then `remaining` and (for positive
`total`) `usage_percent` when both `total` and `used` are present. -/
def finishTraffic (ti : TrafficInfo) : TrafficInfo :=
  let ti₁ :=
    match ti.upload, ti.download with
    | some u, some d => { ti with used := some (u + d) }
    | _, _ => ti
  match ti₁.total, ti₁.used with
  | some t, some u =>
    let ti₂ := { ti₁ with remaining := some (t - u) }
    if 0 < t then { ti₂ with usage_percent := some ((u : ℚ) / (t : ℚ) * 100) } else ti₂
  | _, _ => ti₁

/-- The `for part in parts` loop of `_parse_traffic_info`: an uncaught
exception in an iteration aborts the whole loop. -/
def trafficLoop (render : Int → Option String) (ti : TrafficInfo) :
    List (List Char) → Option TrafficInfo
  | [] => some ti
  | p :: ps =>
    match applyPart render ti p with
    | some ti' => trafficLoop render ti' ps
    | none => none

/-- `SubscriptionParser._parse_traffic_info` on the value of the
`subscription-userinfo` header (`""` when the header is absent): an
empty value yields the empty dict, otherwise the `;`-separated parts
are processed in order and the derived fields added.  `none` models the
uncaught `ValueError` of `int(...)` aborting the whole parse. -/
def parse_traffic_info (render : Int → Option String) (userinfo : String) :
    Option TrafficInfo :=
  if userinfo.data.isEmpty then some {}
  else (trafficLoop render {} (splitOnChar ';' userinfo.data)).map finishTraffic

/-! ## `parser.py`: node enrichment (`_analyze_nodes`) -/

/-- The keyword table of `SubscriptionParser._match_country_by_keyword`,
in insertion order. -/
def country_keywords : List (String × List String) :=
  [("香港", ["香港", "HK", "Hong Kong", "Hongkong"]),
   ("台湾", ["台湾", "TW", "Taiwan"]),
   ("日本", ["日本", "JP", "Japan"]),
   ("美国", ["美国", "US", "USA", "America"]),
   ("新加坡", ["新加坡", "SG", "Singapore"]),
   ("韩国", ["韩国", "KR", "Korea"])]

/-- The lookup loop of `_match_country_by_keyword`. -/
def matchKeywordLoop (name : String) : List (String × List String) → String
  | [] => "其他"
  | (c, kws) :: rest =>
    if kws.any (fun kw => containsSeq kw.data name.data) then c
    else matchKeywordLoop name rest

/-- `SubscriptionParser._match_country_by_keyword`: first table entry one
of whose keywords occurs in the node name, else `"其他"`. -/
def match_country_by_keyword (name : String) : String :=
  matchKeywordLoop name country_keywords

/-- A `locations_detail` entry built by `_analyze_nodes`. -/
structure GeoDetail where
  name : String
  country : String
  city : String
  isp : String
  country_code : String
  flag : String
deriving Repr, DecidableEq

/-- `MAX_GEO_QUERIES` of `SubscriptionParser._analyze_nodes`. -/
def MAX_GEO_QUERIES : Nat := 50

/-- The state threaded through the enrichment loop of `_analyze_nodes`:
the query counter, the lists built by the loop, the per-country detail
counter, plus the `GeoLocationService` cache and the observables of the
lookup service (`geoCalls`: arguments of every `get_location` call;
`fetchCalls`: arguments of every external API request). -/
structure AnalyzeState where
  queries : Nat := 0
  geoCalls : List String := []
  fetchCalls : List String := []
  cache : List (String × GeoLoc) := []
  countries : List String := []
  details : List GeoDetail := []
  detailCount : String → Nat := fun _ => 0

/-- The detail dict built on the geo-success path of `_analyze_nodes`. -/
def mkGeoDetail (node : Node) (loc : GeoLoc) : GeoDetail :=
  { name := node.name
    country := loc.country
    city := loc.city
    isp := loc.isp
    country_code := loc.country_code
    flag := get_country_flag loc.country_code }

/-- The detail dict built on the keyword-fallback path of
`_analyze_nodes`. -/
def mkFallbackDetail (node : Node) (country : String) : GeoDetail :=
  { name := node.name
    country := country
    city := "未知"
    isp := "未知"
    country_code := ""
    flag := "🌐" }

/-- The geo-lookup half of one `_analyze_nodes` iteration: when an
endpoint was extracted, is non-empty, passes `is_valid_ip` and the
query budget is not exhausted, the counter is incremented and
`get_location` consulted; on an answer the country list grows and a
detail dict may be built.  Returns the new state, the `country`
variable (possibly the empty string) and the `detail_obj` variable. -/
def geoBranch (fetch : String → Option GeoLoc) (s : AnalyzeState) (node : Node)
    (ip? : Option String) : AnalyzeState × Option String × Option GeoDetail :=
  match ip? with
  | none => (s, none, none)
  | some ip =>
    if !ip.data.isEmpty && is_valid_ip ip && decide (s.queries < MAX_GEO_QUERIES) then
      let r := get_location fetch s.cache ip
      let s' := { s with
        queries := s.queries + 1
        geoCalls := s.geoCalls ++ [ip]
        fetchCalls := if r.fetched then s.fetchCalls ++ [ip] else s.fetchCalls
        cache := r.cache }
      match r.result with
      | some loc =>
        let s'' := { s' with countries := s'.countries ++ [loc.country] }
        (s'', some loc.country,
          if s.detailCount loc.country < 3 then some (mkGeoDetail node loc) else none)
      | none => (s', none, none)
    else (s, none, none)

/-- The keyword-fallback half of one `_analyze_nodes` iteration: when
the `country` variable is still falsy (unset, or the empty string), the
node name is matched against the keyword table, the country list grows,
and the detail dict is replaced when that country still has fewer than
3 details.  Returns the state, the final `country` value and the final
`detail_obj` value. -/
def fallbackBranch (s : AnalyzeState) (node : Node)
    (cd : Option String × Option GeoDetail) : AnalyzeState × String × Option GeoDetail :=
  match cd with
  | (country?, detail?) =>
    if country?.getD "" = "" then
      let c := match_country_by_keyword node.name
      ({ s with countries := s.countries ++ [c] }, c,
        if s.detailCount c < 3 then some (mkFallbackDetail node c) else detail?)
    else (s, country?.getD "", detail?)

/-- The bookkeeping tail of one `_analyze_nodes` iteration: a built
detail dict is appended and the per-country detail counter bumped. -/
def recordDetail (s : AnalyzeState) (country : String) :
    Option GeoDetail → AnalyzeState
  | some d =>
    { s with
      details := s.details ++ [d]
      detailCount := fun c => if c = country then s.detailCount c + 1 else s.detailCount c }
  | none => s

/-- One full iteration of the enrichment loop of `_analyze_nodes`. -/
def analyzeStep (extractIp : Node → Option String) (fetch : String → Option GeoLoc)
    (s : AnalyzeState) (node : Node) : AnalyzeState :=
  let g := geoBranch fetch s node (extractIp node)
  let f := fallbackBranch g.1 node g.2
  recordDetail f.1 f.2.1 f.2.2

/-- The enrichment loop of `SubscriptionParser._analyze_nodes` over a
node list: IP extraction and the external API are parameters, the
`GeoLocationService` cache starts in the given state. -/
def analyze_nodes (extractIp : Node → Option String) (fetch : String → Option GeoLoc)
    (cache₀ : List (String × GeoLoc)) (nodes : List Node) : AnalyzeState :=
  nodes.foldl (analyzeStep extractIp fetch) { cache := cache₀ }

/-! ## `retry_utils.py` -/

/-- The exception classes relevant to `retry_on_failure`:
`requests.HTTPError` (raised by `raise_for_status`, carrying the HTTP
status), connection errors, timeouts, the fallback `RuntimeError` of
the decorator, and exceptions outside the decorator's tuple. -/
inductive PyExc where
  | httpError (status : Nat)
  | connectionError
  | timeoutError
  | runtimeError
  | otherError
deriving Repr, DecidableEq

/-- Membership in the default `exceptions` tuple
`(requests.RequestException, ConnectionError, TimeoutError)`:
`requests.HTTPError` is a subclass of `requests.RequestException`, so
every `HTTPError` — whatever its status — is caught. -/
def isRetryable : PyExc → Bool
  | .httpError _ => true
  | .connectionError => true
  | .timeoutError => true
  | .runtimeError => false
  | .otherError => false

/-- What one invocation of the wrapped function does. -/
inductive Outcome (α : Type) where
  | ok (a : α)
  | exc (e : PyExc)

/-- The attempt loop of the `retry_on_failure` wrapper.  `remaining` is
`max_retries - attempt`; the result carries the recorded
`time.sleep` delays and the number of invocations of the wrapped
function.  A caught exception on the last attempt is re-raised, an
exception outside the tuple propagates at once, and an exhausted loop
(only possible with `max_retries = 0`) raises `RuntimeError`. -/
def retryGo {α : Type} (f : Nat → Outcome α) (backoff : ℚ) :
    Nat → Nat → ℚ → List ℚ → Except PyExc α × List ℚ × Nat
  | 0, attempt, _, sleeps => (.error .runtimeError, sleeps, attempt)
  | r + 1, attempt, delay, sleeps =>
    match f attempt with
    | .ok a => (.ok a, sleeps, attempt + 1)
    | .exc e =>
      if isRetryable e then
        if r = 0 then (.error e, sleeps, attempt + 1)
        else retryGo f backoff r (attempt + 1) (delay * backoff) (sleeps ++ [delay])
      else (.error e, sleeps, attempt + 1)

/-- `retry_on_failure(max_retries, initial_delay, backoff_factor)`
applied to a function whose behaviour on the `attempt`-th invocation is
`f attempt`: the final outcome, the sequence of waits slept between
attempts, and the number of attempts made. -/
def retry_on_failure {α : Type} (maxRetries : Nat) (initialDelay backoffFactor : ℚ)
    (f : Nat → Outcome α) : Except PyExc α × List ℚ × Nat :=
  retryGo f backoffFactor maxRetries 0 initialDelay []

/-- The body of `SubscriptionParser._download_subscription._fetch` for a
response with the given HTTP status: `response.raise_for_status()`
raises `requests.HTTPError` for every 4xx and 5xx status and returns the
response otherwise. -/
def fetchStatus (status : Nat) : Outcome Nat :=
  if 400 ≤ status then .exc (.httpError status) else .ok status

/-! ## Concrete data used in the theorems below -/

/-- A Clash-YAML-shaped node whose endpoint is a hostname. -/
def hostNode : Node := { name := "US-01", protocol := "ss", server := some "example.com" }

/-- A Clash-YAML-shaped node whose endpoint is a literal IPv4 address. -/
def hitNode : Node := { name := "HK-01", protocol := "ss", server := some "1.2.3.4" }

/-- A sample cached geo answer. -/
def hkLoc : GeoLoc := { country := "香港", city := "Hong Kong", isp := "HKT", country_code := "HK" }

/-- A sample geo answer for a fresh lookup. -/
def usLoc : GeoLoc := { country := "United States", city := "Los Angeles", isp := "ISP", country_code := "US" }

/-- The `i`-th of a family of pairwise distinct IP-key strings. -/
def unaryStr (i : Nat) : String := String.mk (List.replicate (i + 1) 'a')

/-- The geo cache left after a sequence of `get_location` calls, one per
element of `ips`, starting from `cache` — the way the enrichment loop
populates the `GeoLocationService` cache. -/
def geo_cache_inserts (fetch : String → Option GeoLoc) (cache : List (String × GeoLoc))
    (ips : List String) : List (String × GeoLoc) :=
  ips.foldl (fun c ip => (get_location fetch c ip).cache) cache

/-! ## Helper lemmas -/

theorem isPrefixOf_append_self (l t : List Char) : l.isPrefixOf (l ++ t) = true := by
  induction l with
  | nil => simp [List.isPrefixOf]
  | cons a as ih => simp [List.isPrefixOf, ih]

theorem findProto_none (l : List Char) :
    ∀ ps : List String, (∀ p ∈ ps, p.data.isPrefixOf l = false) → findProto ps l = none := by
  intro ps
  induction ps with
  | nil => intro _; rfl
  | cons p ps ih =>
    intro h
    have hp := h p (by simp)
    simp only [findProto, hp, Bool.false_eq_true, if_false]
    exact ih fun q hq => h q (by simp [hq])

theorem parseProxiesLoop_le (proxies : List (Option ProxyDict)) :
    ∀ nodes : List Node, nodes.length ≤ MAX_NODES →
      (parseProxiesLoop nodes proxies).length ≤ MAX_NODES := by
  induction proxies with
  | nil => intro nodes h; exact h
  | cons p rest ih =>
    intro nodes h
    by_cases hcap : MAX_NODES ≤ nodes.length
    · simpa [parseProxiesLoop, hcap] using h
    · cases p with
      | some d =>
        simp only [parseProxiesLoop, if_neg hcap]
        have hlt : nodes.length < MAX_NODES := Nat.lt_of_not_le hcap
        exact ih (nodes ++ [yamlNode d]) (by simp; omega)
      | none =>
        simp only [parseProxiesLoop, if_neg hcap]
        exact ih nodes h

theorem parseLinesLoop_le (unq : String → String) (vmessPs : String → Option String)
    (lines : List (List Char)) :
    ∀ nodes : List Node, nodes.length ≤ MAX_NODES →
      (parseLinesLoop unq vmessPs nodes lines).length ≤ MAX_NODES := by
  induction lines with
  | nil => intro nodes h; exact h
  | cons l rest ih =>
    intro nodes h
    by_cases hcap : MAX_NODES ≤ nodes.length
    · simpa [parseLinesLoop, hcap] using h
    · simp only [parseLinesLoop, if_neg hcap]
      by_cases hempty : (trimChars l).isEmpty = true
      · simp only [hempty, if_true]
        exact ih nodes h
      · simp only [hempty, Bool.false_eq_true, if_false]
        cases parse_node_line unq vmessPs (String.mk (trimChars l)) with
        | some node =>
          have hlt : nodes.length < MAX_NODES := Nat.lt_of_not_le hcap
          exact ih (nodes ++ [node]) (by simp; omega)
        | none => exact ih nodes h

/-! ## C7 -/

/-- C7: for every input payload, node parsing returns at most 300
nodes: both the structured-list (Clash YAML `proxies`) loop and the
encoded-line loop stop once `MAX_NODES = 300` nodes were collected,
however many valid entries remain. -/
theorem parse_nodes_at_most_300 :
    ∀ (unq : String → String) (vmessPs : String → Option String) (content : String)
      (proxies : List (Option ProxyDict)),
      (parse_nodes_lines unq vmessPs content).length ≤ 300 ∧
      (parse_nodes_proxies proxies).length ≤ 300 := by
  intro unq vmessPs content proxies
  constructor
  · exact parseLinesLoop_le unq vmessPs _ [] (by simp [MAX_NODES])
  · exact parseProxiesLoop_le proxies [] (by simp [MAX_NODES])

/-! ## C9 -/

/-- C9: a line beginning with any of the seven supported scheme
prefixes decodes to `some` node tagged with that scheme (the prefix
minus `://`); a line starting with none of them decodes to `none`. -/
theorem parse_node_line_spec :
    ∀ (unq : String → String) (vmessPs : String → Option String) (rest line : String),
      ((parse_node_line unq vmessPs ("vmess://" ++ rest)).map Node.protocol = some "vmess") ∧
      ((parse_node_line unq vmessPs ("vless://" ++ rest)).map Node.protocol = some "vless") ∧
      ((parse_node_line unq vmessPs ("ss://" ++ rest)).map Node.protocol = some "ss") ∧
      ((parse_node_line unq vmessPs ("ssr://" ++ rest)).map Node.protocol = some "ssr") ∧
      ((parse_node_line unq vmessPs ("trojan://" ++ rest)).map Node.protocol = some "trojan") ∧
      ((parse_node_line unq vmessPs ("hysteria://" ++ rest)).map Node.protocol =
        some "hysteria") ∧
      ((parse_node_line unq vmessPs ("hysteria2://" ++ rest)).map Node.protocol =
        some "hysteria2") ∧
      ((∀ p ∈ protocols, p.data.isPrefixOf line.data = false) →
        parse_node_line unq vmessPs line = none) := by
  intro unq vmessPs rest line
  refine ⟨?_, ?_, ?_, ?_, ?_, ?_, ?_, ?_⟩
  · simp [parse_node_line, findProto, protocols, String.data_append, List.isPrefixOf,
      isPrefixOf_append_self]
    decide
  · simp [parse_node_line, findProto, protocols, String.data_append, List.isPrefixOf,
      isPrefixOf_append_self]
    decide
  · simp [parse_node_line, findProto, protocols, String.data_append, List.isPrefixOf,
      isPrefixOf_append_self]
    decide
  · simp [parse_node_line, findProto, protocols, String.data_append, List.isPrefixOf,
      isPrefixOf_append_self]
    decide
  · simp [parse_node_line, findProto, protocols, String.data_append, List.isPrefixOf,
      isPrefixOf_append_self]
    decide
  · simp [parse_node_line, findProto, protocols, String.data_append, List.isPrefixOf,
      isPrefixOf_append_self]
    decide
  · simp [parse_node_line, findProto, protocols, String.data_append, List.isPrefixOf,
      isPrefixOf_append_self]
    decide
  · intro h
    simp [parse_node_line, findProto_none line.data protocols h]

/-- Concrete instance of `parse_node_line_spec`: an `http://` line is
rejected and a `trojan://` line is tagged `trojan`. -/
theorem parse_node_line_spec_witness :
    parse_node_line id (fun _ => none) "http://example.com/sub" = none ∧
    (parse_node_line id (fun _ => none) ("trojan://" ++ "uuid@host:443#HK")).map Node.protocol =
      some "trojan" := by
  constructor
  · exact (parse_node_line_spec id (fun _ => none) "" "http://example.com/sub").2.2.2.2.2.2.2
      (by decide)
  · exact (parse_node_line_spec id (fun _ => none) "uuid@host:443#HK" "").2.2.2.2.1

/-! ## C8 -/

theorem applyPart_fields (render : Int → Option String) (ti : TrafficInfo) (p : List Char)
    (ti' : TrafficInfo) (h : applyPart render ti p = some ti') :
    ti'.used = ti.used ∧ ti'.remaining = ti.remaining ∧ ti'.usage_percent = ti.usage_percent := by
  unfold applyPart at h
  split at h
  · cases h; exact ⟨rfl, rfl, rfl⟩
  · split at h
    · obtain ⟨n, -, rfl⟩ := Option.map_eq_some'.mp h
      exact ⟨rfl, rfl, rfl⟩
    · split at h
      · obtain ⟨n, -, rfl⟩ := Option.map_eq_some'.mp h
        exact ⟨rfl, rfl, rfl⟩
      · split at h
        · obtain ⟨n, -, rfl⟩ := Option.map_eq_some'.mp h
          exact ⟨rfl, rfl, rfl⟩
        · split at h
          · split at h
            · split at h
              · cases h; exact ⟨rfl, rfl, rfl⟩
              · cases h; exact ⟨rfl, rfl, rfl⟩
            · cases h; exact ⟨rfl, rfl, rfl⟩
          · cases h; exact ⟨rfl, rfl, rfl⟩

theorem trafficLoop_fields (render : Int → Option String) :
    ∀ (parts : List (List Char)) (ti ti' : TrafficInfo),
      trafficLoop render ti parts = some ti' →
      ti.used = none → ti.remaining = none → ti.usage_percent = none →
      ti'.used = none ∧ ti'.remaining = none ∧ ti'.usage_percent = none := by
  intro parts
  induction parts with
  | nil =>
    intro ti ti' h h1 h2 h3
    cases h
    exact ⟨h1, h2, h3⟩
  | cons p ps ih =>
    intro ti ti' h h1 h2 h3
    unfold trafficLoop at h
    rcases ha : applyPart render ti p with _ | ti₁ <;> rw [ha] at h
    · cases h
    · obtain ⟨e1, e2, e3⟩ := applyPart_fields render ti p ti₁ ha
      exact ih ti₁ ti' h (e1.trans h1) (e2.trans h2) (e3.trans h3)

theorem finishTraffic_law (ti : TrafficInfo) (h1 : ti.used = none) (h2 : ti.remaining = none) :
    (finishTraffic ti).used = (match ti.upload, ti.download with
      | some u, some d => some (u + d)
      | _, _ => none) ∧
    (finishTraffic ti).remaining = (match ti.total, (finishTraffic ti).used with
      | some t, some u => some (t - u)
      | _, _ => none) ∧
    (finishTraffic ti).upload = ti.upload ∧
    (finishTraffic ti).download = ti.download ∧
    (finishTraffic ti).total = ti.total := by
  rcases hu : ti.upload with _ | u <;> rcases hd : ti.download with _ | d <;>
    rcases ht : ti.total with _ | t <;>
      simp only [finishTraffic, hu, hd, ht, h1, h2] <;>
        refine ⟨?_, ?_, ?_, ?_, ?_⟩ <;> (try split) <;> simp [hu, hd, ht, h1, h2]

/-- C8: on the header value
`"upload=1000; download=2000; total=10000; expire=1735689600"` traffic
extraction yields `used = 3000`, `remaining = 7000`,
`usage_percent = 30`, and `expire_time` set to the calendar rendering of
that very timestamp; in general `used` is `upload + download` exactly
when both are present, `remaining` is `total - used` exactly when both
are present, and `remaining` is propagated unclamped — on
`"upload=5; download=6; total=3"` it is `-8`. -/
theorem parse_traffic_info_spec :
    ∀ (render : Int → Option String) (d : String) (s : String) (ti : TrafficInfo),
      (render 1735689600 = some d →
        parse_traffic_info render "upload=1000; download=2000; total=10000; expire=1735689600" =
          some { upload := some 1000, download := some 2000, total := some 10000,
                 expire_time := some d, used := some 3000, remaining := some 7000,
                 usage_percent := some 30 }) ∧
      (parse_traffic_info render s = some ti →
        ti.used = (match ti.upload, ti.download with
          | some u, some dl => some (u + dl)
          | _, _ => none) ∧
        ti.remaining = (match ti.total, ti.used with
          | some t, some u => some (t - u)
          | _, _ => none)) ∧
      parse_traffic_info render "upload=5; download=6; total=3" =
        some { upload := some 5, download := some 6, total := some 3, used := some 11,
               remaining := some (-8), usage_percent := some (1100 / 3 : ℚ) } := by
  intro render d s ti
  refine ⟨?_, ?_, ?_⟩
  · intro h
    simp [parse_traffic_info, trafficLoop, applyPart, splitOnChar, trimChars, breakAt,
      parseIntChars, digitsVal?, natOfDigits, finishTraffic, h]
    norm_num
  · intro h
    unfold parse_traffic_info at h
    split at h
    · cases h
      exact ⟨rfl, rfl⟩
    · rcases hl : trafficLoop render {} (splitOnChar ';' s.data) with _ | ti₀ <;>
        rw [hl] at h
      · cases h
      · obtain ⟨f1, f2, f3⟩ := trafficLoop_fields render _ {} ti₀ hl rfl rfl rfl
        obtain ⟨g1, g2, g3, g4, g5⟩ := finishTraffic_law ti₀ f1 f2
        cases h
        refine ⟨?_, ?_⟩
        · rw [g1, g3, g4]
        · rw [g2, g5]
  · have key : parse_traffic_info render "upload=5; download=6; total=3" =
        Option.map finishTraffic
          (some { upload := some 5, download := some 6, total := some 3 }) := rfl
    rw [key]
    simp [finishTraffic]
    norm_num

/-- Concrete instance of `parse_traffic_info_spec`: a header carrying
only `upload` and `total` produces neither `used` nor `remaining`. -/
theorem parse_traffic_info_spec_witness :
    TrafficInfo.used { upload := some 1, total := some 5 } = none ∧
    TrafficInfo.remaining { upload := some 1, total := some 5 } = none := by
  exact (parse_traffic_info_spec (fun _ => none) "" "upload=1; total=5"
    { upload := some 1, total := some 5 }).2.1 rfl

/-! ## C10 -/

/-- C10: a non-integer `upload`/`download`/`total` value makes
`int(value)` raise an uncaught `ValueError`, aborting the whole traffic
extraction (`none`), even when later fields are well-formed; a
malformed `expire` value, converted inside `try`/`except`, is silently
dropped while the rest of the header is still processed. -/
theorem traffic_nonint_aborts_expire_silent :
    ∀ render : Int → Option String,
      parse_traffic_info render "upload=abc; download=2000; total=10000; expire=1735689600" =
        none ∧
      parse_traffic_info render "upload=1000; download=2000; expire=abc" =
        some { upload := some 1000, download := some 2000, used := some 3000 } := by
  intro render
  exact ⟨rfl, rfl⟩

/-! ## The enrichment loop: core observables -/

theorem fallbackBranch_core (s : AnalyzeState) (n : Node)
    (cd : Option String × Option GeoDetail) :
    (fallbackBranch s n cd).1.queries = s.queries ∧
    (fallbackBranch s n cd).1.geoCalls = s.geoCalls ∧
    (fallbackBranch s n cd).1.fetchCalls = s.fetchCalls := by
  rcases cd with ⟨c?, d?⟩
  simp only [fallbackBranch]
  split <;> exact ⟨rfl, rfl, rfl⟩

theorem recordDetail_core (s : AnalyzeState) (c : String) (d? : Option GeoDetail) :
    (recordDetail s c d?).queries = s.queries ∧
    (recordDetail s c d?).geoCalls = s.geoCalls ∧
    (recordDetail s c d?).fetchCalls = s.fetchCalls := by
  cases d? <;> exact ⟨rfl, rfl, rfl⟩

theorem geoBranch_core (fetch : String → Option GeoLoc) (s : AnalyzeState) (n : Node)
    (ip? : Option String) :
    ((geoBranch fetch s n ip?).1.queries = s.queries ∧
     (geoBranch fetch s n ip?).1.geoCalls = s.geoCalls ∧
     (geoBranch fetch s n ip?).1.fetchCalls = s.fetchCalls) ∨
    (s.queries < MAX_GEO_QUERIES ∧
     (geoBranch fetch s n ip?).1.queries = s.queries + 1 ∧
     ∃ ip, (geoBranch fetch s n ip?).1.geoCalls = s.geoCalls ++ [ip] ∧
       ((geoBranch fetch s n ip?).1.fetchCalls = s.fetchCalls ∨
        (geoBranch fetch s n ip?).1.fetchCalls = s.fetchCalls ++ [ip])) := by
  cases ip? with
  | none => exact Or.inl ⟨rfl, rfl, rfl⟩
  | some ip =>
    by_cases hc : (!ip.data.isEmpty && is_valid_ip ip &&
        decide (s.queries < MAX_GEO_QUERIES)) = true
    · have hq : s.queries < MAX_GEO_QUERIES := by
        simp only [Bool.and_eq_true, decide_eq_true_eq] at hc
        exact hc.2
      refine Or.inr ⟨hq, ?_, ip, ?_, ?_⟩
      · cases hres : (get_location fetch s.cache ip).result <;>
          simp [geoBranch, hc, hres]
      · cases hres : (get_location fetch s.cache ip).result <;>
          simp [geoBranch, hc, hres]
      · cases hres : (get_location fetch s.cache ip).result <;>
          cases hf : (get_location fetch s.cache ip).fetched <;>
            simp [geoBranch, hc, hres, hf]
    · exact Or.inl (by simp [geoBranch, hc])

theorem analyzeStep_core (e : Node → Option String) (f : String → Option GeoLoc)
    (s : AnalyzeState) (n : Node) :
    ((analyzeStep e f s n).queries = s.queries ∧
     (analyzeStep e f s n).geoCalls = s.geoCalls ∧
     (analyzeStep e f s n).fetchCalls = s.fetchCalls) ∨
    (s.queries < MAX_GEO_QUERIES ∧
     (analyzeStep e f s n).queries = s.queries + 1 ∧
     ∃ ip, (analyzeStep e f s n).geoCalls = s.geoCalls ++ [ip] ∧
       ((analyzeStep e f s n).fetchCalls = s.fetchCalls ∨
        (analyzeStep e f s n).fetchCalls = s.fetchCalls ++ [ip])) := by
  have hdef : analyzeStep e f s n =
      recordDetail (fallbackBranch (geoBranch f s n (e n)).1 n (geoBranch f s n (e n)).2).1
        (fallbackBranch (geoBranch f s n (e n)).1 n (geoBranch f s n (e n)).2).2.1
        (fallbackBranch (geoBranch f s n (e n)).1 n (geoBranch f s n (e n)).2).2.2 := rfl
  obtain ⟨r1, r2, r3⟩ := recordDetail_core
    (fallbackBranch (geoBranch f s n (e n)).1 n (geoBranch f s n (e n)).2).1
    (fallbackBranch (geoBranch f s n (e n)).1 n (geoBranch f s n (e n)).2).2.1
    (fallbackBranch (geoBranch f s n (e n)).1 n (geoBranch f s n (e n)).2).2.2
  obtain ⟨f1, f2, f3⟩ := fallbackBranch_core (geoBranch f s n (e n)).1 n
    (geoBranch f s n (e n)).2
  have e1 : (analyzeStep e f s n).queries = (geoBranch f s n (e n)).1.queries := by
    rw [hdef, r1, f1]
  have e2 : (analyzeStep e f s n).geoCalls = (geoBranch f s n (e n)).1.geoCalls := by
    rw [hdef, r2, f2]
  have e3 : (analyzeStep e f s n).fetchCalls = (geoBranch f s n (e n)).1.fetchCalls := by
    rw [hdef, r3, f3]
  rcases geoBranch_core f s n (e n) with ⟨g1, g2, g3⟩ | ⟨hq, g1, ip, g2, g3⟩
  · exact Or.inl ⟨e1.trans g1, e2.trans g2, e3.trans g3⟩
  · refine Or.inr ⟨hq, e1.trans g1, ip, e2.trans g2, ?_⟩
    rcases g3 with g3 | g3
    · exact Or.inl (e3.trans g3)
    · exact Or.inr (e3.trans g3)

theorem analyze_foldl_inv (e : Node → Option String) (f : String → Option GeoLoc) :
    ∀ (nodes : List Node) (s : AnalyzeState),
      s.geoCalls.length ≤ s.queries → s.fetchCalls.length ≤ s.queries →
      s.queries ≤ MAX_GEO_QUERIES →
      (nodes.foldl (analyzeStep e f) s).geoCalls.length ≤
        (nodes.foldl (analyzeStep e f) s).queries ∧
      (nodes.foldl (analyzeStep e f) s).fetchCalls.length ≤
        (nodes.foldl (analyzeStep e f) s).queries ∧
      (nodes.foldl (analyzeStep e f) s).queries ≤ MAX_GEO_QUERIES := by
  intro nodes
  induction nodes with
  | nil => intro s h1 h2 h3; exact ⟨h1, h2, h3⟩
  | cons n rest ih =>
    intro s h1 h2 h3
    simp only [List.foldl_cons]
    rcases analyzeStep_core e f s n with ⟨c1, c2, c3⟩ | ⟨hq, c1, ip, c2, c3⟩
    · exact ih (analyzeStep e f s n) (by rw [c1, c2]; exact h1) (by rw [c1, c3]; exact h2)
        (by rw [c1]; exact h3)
    · refine ih (analyzeStep e f s n) ?_ ?_ ?_
      · rw [c1, c2]; simp; omega
      · rw [c1]
        rcases c3 with c3 | c3 <;> rw [c3]
        · omega
        · simp; omega
      · omega

/-! ## C2 -/

/-- C2: one enrichment pass makes at most `MAX_GEO_QUERIES = 50` calls
to the lookup service (`geoCalls` records every `get_location`
invocation) and hence also at most 50 external API requests
(`fetchCalls`), for every node list, extraction function, external
responder and starting cache. -/
theorem analyze_nodes_at_most_50_lookups :
    ∀ (extractIp : Node → Option String) (fetch : String → Option GeoLoc)
      (cache₀ : List (String × GeoLoc)) (nodes : List Node),
      (analyze_nodes extractIp fetch cache₀ nodes).geoCalls.length ≤ 50 ∧
      (analyze_nodes extractIp fetch cache₀ nodes).fetchCalls.length ≤ 50 := by
  intro e f c nodes
  have h := analyze_foldl_inv e f nodes { cache := c } (by simp) (by simp)
    (by simp [MAX_GEO_QUERIES])
  exact ⟨le_trans h.1 h.2.2, le_trans h.2.1 h.2.2⟩

/-! ## C3 and C4 -/

theorem is_valid_ip_ne_empty (ip : String) (h : is_valid_ip ip = true) :
    ip.data.isEmpty = false := by
  cases hi : ip.data.isEmpty with
  | false => rfl
  | true => simp [is_valid_ip, hi] at h

theorem get_location_hit_no_fetch (f : String → Option GeoLoc)
    (cache : List (String × GeoLoc)) (ip : String) (loc : GeoLoc)
    (h : cache.lookup ip = some loc) : (get_location f cache ip).fetched = false := by
  unfold get_location
  split
  · rfl
  · simp [h]

theorem analyzeStep_lookup_aux (e : Node → Option String) (f : String → Option GeoLoc)
    (s : AnalyzeState) (n : Node) (ip : String) (he : e n = some ip)
    (hv : is_valid_ip ip = true) (hq : s.queries < MAX_GEO_QUERIES) :
    (analyzeStep e f s n).queries = s.queries + 1 ∧
    (analyzeStep e f s n).geoCalls = s.geoCalls ++ [ip] ∧
    (analyzeStep e f s n).fetchCalls =
      (if (get_location f s.cache ip).fetched = true then s.fetchCalls ++ [ip]
       else s.fetchCalls) := by
  have hdef : analyzeStep e f s n =
      recordDetail (fallbackBranch (geoBranch f s n (e n)).1 n (geoBranch f s n (e n)).2).1
        (fallbackBranch (geoBranch f s n (e n)).1 n (geoBranch f s n (e n)).2).2.1
        (fallbackBranch (geoBranch f s n (e n)).1 n (geoBranch f s n (e n)).2).2.2 := rfl
  obtain ⟨r1, r2, r3⟩ := recordDetail_core
    (fallbackBranch (geoBranch f s n (e n)).1 n (geoBranch f s n (e n)).2).1
    (fallbackBranch (geoBranch f s n (e n)).1 n (geoBranch f s n (e n)).2).2.1
    (fallbackBranch (geoBranch f s n (e n)).1 n (geoBranch f s n (e n)).2).2.2
  obtain ⟨f1, f2, f3⟩ := fallbackBranch_core (geoBranch f s n (e n)).1 n
    (geoBranch f s n (e n)).2
  have hcond : (!ip.data.isEmpty && is_valid_ip ip &&
      decide (s.queries < MAX_GEO_QUERIES)) = true := by
    simp [is_valid_ip_ne_empty ip hv, hv, hq]
  refine ⟨?_, ?_, ?_⟩
  · rw [hdef, r1, f1, he]
    cases hres : (get_location f s.cache ip).result <;> simp [geoBranch, hcond, hres]
  · rw [hdef, r2, f2, he]
    cases hres : (get_location f s.cache ip).result <;> simp [geoBranch, hcond, hres]
  · rw [hdef, r3, f3, he]
    cases hres : (get_location f s.cache ip).result <;>
      cases hf : (get_location f s.cache ip).fetched <;>
        simp [geoBranch, hcond, hres, hf]

/-- C3 (amended): a lookup attempt increments the per-parse query
counter whether or not the geo cache answers it — in particular a
cache-hit (which causes no external request: `fetchCalls` is unchanged)
still consumes one unit of the 50-query budget. -/
theorem query_counter_counts_cache_hits :
    ∀ (e : Node → Option String) (f : String → Option GeoLoc) (s : AnalyzeState)
      (n : Node) (ip : String) (loc : GeoLoc),
      e n = some ip → is_valid_ip ip = true → s.queries < MAX_GEO_QUERIES →
      s.cache.lookup ip = some loc →
      (analyzeStep e f s n).queries = s.queries + 1 ∧
      (analyzeStep e f s n).fetchCalls = s.fetchCalls := by
  intro e f s n ip loc he hv hq hhit
  obtain ⟨h1, -, h3⟩ := analyzeStep_lookup_aux e f s n ip he hv hq
  refine ⟨h1, ?_⟩
  rw [h3, get_location_hit_no_fetch f s.cache ip loc hhit]
  simp

/-- Concrete instance of `query_counter_counts_cache_hits`: one node
whose cached endpoint is answered without an external request still
bumps the counter from 0 to 1. -/
theorem query_counter_counts_cache_hits_witness :
    (analyzeStep (extract_ip (fun _ => none)) (fun _ => none)
        { cache := [("1.2.3.4", hkLoc)] } hitNode).queries = 0 + 1 ∧
    (analyzeStep (extract_ip (fun _ => none)) (fun _ => none)
        { cache := [("1.2.3.4", hkLoc)] } hitNode).fetchCalls = [] :=
  query_counter_counts_cache_hits (extract_ip (fun _ => none)) (fun _ => none)
    { cache := [("1.2.3.4", hkLoc)] } hitNode "1.2.3.4" hkLoc rfl (by decide) (by decide) rfl

/-- Counterexample to C3 as stated: with the cache already holding
`1.2.3.4`, enriching one node with that endpoint is answered from the
cache (`fetchCalls = []`, no external attempt), yet the query counter
ends at 1, not 0 — cache hits do consume the 50-query budget. -/
theorem query_counter_cache_hit_counterexample :
    (analyze_nodes (extract_ip (fun _ => none)) (fun _ => none) [("1.2.3.4", hkLoc)]
        [hitNode]).queries = 1 ∧
    (analyze_nodes (extract_ip (fun _ => none)) (fun _ => none) [("1.2.3.4", hkLoc)]
        [hitNode]).fetchCalls = [] ∧
    (1 : Nat) ≠ 0 :=
  ⟨rfl, rfl, by decide⟩

/-- C4 (amended): every extracted endpoint that passes `is_valid_ip` —
which accepts syntactically valid hostnames as well as literal
dotted-quad IPv4 addresses — is sent to the geo lookup service while
the query budget is not exhausted. -/
theorem valid_endpoints_sent_to_lookup :
    ∀ (e : Node → Option String) (f : String → Option GeoLoc) (s : AnalyzeState)
      (n : Node) (ip : String),
      e n = some ip → is_valid_ip ip = true → s.queries < MAX_GEO_QUERIES →
      (analyzeStep e f s n).geoCalls = s.geoCalls ++ [ip] := by
  intro e f s n ip he hv hq
  exact (analyzeStep_lookup_aux e f s n ip he hv hq).2.1

/-- Concrete instance of `valid_endpoints_sent_to_lookup`: the hostname
endpoint `example.com` is passed to the lookup service. -/
theorem valid_endpoints_sent_to_lookup_witness :
    (analyzeStep (extract_ip (fun _ => none)) (fun _ => some usLoc) {} hostNode).geoCalls =
      [] ++ ["example.com"] :=
  valid_endpoints_sent_to_lookup (extract_ip (fun _ => none)) (fun _ => some usLoc) {}
    hostNode "example.com" rfl (by decide) (by decide)

/-- Counterexample to C4 as stated: a node whose endpoint is the
hostname `example.com` (not a literal IP) is nonetheless sent to geo
lookup — `is_valid_ip` accepts it, one lookup and one external request
are recorded, and the country comes from the lookup answer rather than
from the keyword fallback on the node name. -/
theorem hostname_sent_to_geo_counterexample :
    is_valid_ip "example.com" = true ∧
    (analyze_nodes (extract_ip (fun _ => none)) (fun _ => some usLoc) []
        [hostNode]).geoCalls = ["example.com"] ∧
    (analyze_nodes (extract_ip (fun _ => none)) (fun _ => some usLoc) []
        [hostNode]).fetchCalls = ["example.com"] ∧
    (analyze_nodes (extract_ip (fun _ => none)) (fun _ => some usLoc) []
        [hostNode]).countries = ["United States"] :=
  ⟨by decide, rfl, rfl, rfl⟩

/-! ## C1 -/

theorem lookup_none_of_fresh (cache : List (String × GeoLoc)) (ip : String)
    (h : ip ∉ cache.map Prod.fst) : cache.lookup ip = none := by
  induction cache with
  | nil => rfl
  | cons kv rest ih =>
    rcases kv with ⟨k, v⟩
    simp only [List.map_cons, List.mem_cons] at h
    push_neg at h
    have hbeq : (ip == k) = false := beq_eq_false_iff_ne.mpr h.1
    simp [List.lookup, hbeq, ih h.2]

theorem get_location_fresh_cache (f : String → Option GeoLoc)
    (cache : List (String × GeoLoc)) (ip : String) (loc : GeoLoc)
    (hne : ip.data.isEmpty = false) (hunk : ip ≠ "unknown")
    (hmem : ip ∉ cache.map Prod.fst) (hf : f ip = some loc) :
    (get_location f cache ip).cache = cache ++ [(ip, loc)] := by
  simp [get_location, hne, hunk, lookup_none_of_fresh cache ip hmem, hf]

theorem geo_cache_inserts_length (f : String → Option GeoLoc) :
    ∀ (ips : List String) (cache : List (String × GeoLoc)),
      ips.Nodup →
      (∀ ip ∈ ips, ip.data.isEmpty = false ∧ ip ≠ "unknown" ∧
        ip ∉ cache.map Prod.fst ∧ (f ip).isSome = true) →
      (geo_cache_inserts f cache ips).length = cache.length + ips.length := by
  intro ips
  induction ips with
  | nil => intro cache _ _; simp [geo_cache_inserts]
  | cons ip rest ih =>
    intro cache hnd hall
    have hnd' := List.nodup_cons.mp hnd
    obtain ⟨h1, h2, h3, h4⟩ := hall ip (by simp)
    obtain ⟨loc, hloc⟩ := Option.isSome_iff_exists.mp h4
    have hstep : (get_location f cache ip).cache = cache ++ [(ip, loc)] :=
      get_location_fresh_cache f cache ip loc h1 h2 h3 hloc
    have hfold : geo_cache_inserts f cache (ip :: rest) =
        geo_cache_inserts f (cache ++ [(ip, loc)]) rest := by
      simp [geo_cache_inserts, hstep]
    rw [hfold, ih (cache ++ [(ip, loc)]) hnd'.2 ?_]
    · simp
      omega
    · intro q hq
      obtain ⟨q1, q2, q3, q4⟩ := hall q (List.mem_cons_of_mem _ hq)
      refine ⟨q1, q2, ?_, q4⟩
      simp only [List.map_append, List.mem_append, List.map_cons, List.map_nil,
        List.mem_singleton]
      rintro (hc | hc)
      · exact q3 hc
      · exact hnd'.1 (hc ▸ hq)

theorem unaryStr_injective : Function.Injective unaryStr := by
  intro i j h
  have h2 : i + 1 = j + 1 := by
    simpa [unaryStr] using congrArg (fun s : String => s.data.length) h
  omega

theorem unaryStr_ne_empty (i : Nat) : (unaryStr i).data.isEmpty = false := by
  simp [unaryStr, List.replicate_succ]

theorem unaryStr_ne_unknown (i : Nat) : unaryStr i ≠ "unknown" := by
  intro h
  have hd : List.replicate (i + 1) 'a' = "unknown".data := congrArg String.data h
  rw [List.replicate_succ] at hd
  have h7 : "unknown".data = 'u' :: "nknown".data := rfl
  rw [h7] at hd
  injection hd with ha _
  exact absurd ha (by decide)

set_option maxRecDepth 4000 in
/-- Counterexample to C1 as stated: `get_location` performs no TTL
purge and no capacity eviction, so 501 successful lookups of pairwise
distinct fresh keys leave 501 cache entries, not 500. -/
theorem geo_cache_501_insertions_counterexample :
    (geo_cache_inserts (fun _ => some hkLoc) [] ((List.range 501).map unaryStr)).length =
      501 ∧ (501 : Nat) ≠ 500 := by
  constructor
  · have h := geo_cache_inserts_length (fun _ => some hkLoc) ((List.range 501).map unaryStr)
      [] ((List.nodup_range 501).map unaryStr_injective)
      (by
        intro ip hip
        obtain ⟨i, -, rfl⟩ := List.mem_map.mp hip
        exact ⟨unaryStr_ne_empty i, unaryStr_ne_unknown i, by simp, rfl⟩)
    simpa using h
  · decide

/-- C1 (amended): the geo cache is unbounded — `get_location` never
purges by age and never evicts by capacity; every successful lookup of
a fresh, non-empty, non-`"unknown"` key appends one entry, so `n`
pairwise distinct such insertions grow the cache by exactly `n`
(inserting 501 distinct entries leaves 501 entries, not 500). -/
theorem geo_cache_unbounded :
    ∀ (f : String → Option GeoLoc) (ips : List String) (cache : List (String × GeoLoc)),
      ips.Nodup →
      (∀ ip ∈ ips, ip.data.isEmpty = false ∧ ip ≠ "unknown" ∧
        ip ∉ cache.map Prod.fst ∧ (f ip).isSome = true) →
      (geo_cache_inserts f cache ips).length = cache.length + ips.length := by
  intro f ips cache h1 h2
  exact geo_cache_inserts_length f ips cache h1 h2

/-- Concrete instance of `geo_cache_unbounded`: two fresh keys grow an
empty cache to exactly two entries. -/
theorem geo_cache_unbounded_witness :
    (geo_cache_inserts (fun _ => some usLoc) [] ["1.1.1.1", "8.8.8.8"]).length = 0 + 2 :=
  geo_cache_unbounded (fun _ => some usLoc) ["1.1.1.1", "8.8.8.8"] [] (by decide) (by decide)

/-! ## C5 and C6 -/

theorem retryGo_always_fail (e : PyExc) (he : isRetryable e = true) (f : Nat → Outcome Nat)
    (hf : ∀ n, f n = .exc e) (b : ℚ) :
    ∀ (r attempt : Nat) (delay : ℚ) (sleeps : List ℚ), 1 ≤ r →
      retryGo f b r attempt delay sleeps =
        (.error e, sleeps ++ (List.range (r - 1)).map (fun k => delay * b ^ k),
          attempt + r) := by
  intro r
  induction r with
  | zero => intro _ _ _ h; omega
  | succ r ih =>
    intro attempt delay sleeps _
    simp only [retryGo, hf attempt, he, if_true]
    cases r with
    | zero => simp
    | succ r' =>
      rw [if_neg (Nat.succ_ne_zero r')]
      rw [ih (attempt + 1) (delay * b) (sleeps ++ [delay]) (by omega)]
      have hfun : ((fun k => delay * b ^ k) ∘ Nat.succ) = fun k => delay * b * b ^ k := by
        funext k
        simp [Function.comp, pow_succ]
        ring
      have hlist : (List.range (r' + 1)).map (fun k => delay * b ^ k) =
          delay :: (List.range r').map (fun k => delay * b * b ^ k) := by
        rw [List.range_succ_eq_map, List.map_cons, List.map_map, hfun]
        simp
      simp [hlist]
      omega

/-- Counterexample to C5 as stated: a fetch whose origin answers 404 on
every attempt (`raise_for_status` turns every 4xx response into
`requests.HTTPError`, a `RequestException`, which the decorator's
exception tuple catches) is attempted 3 times with two back-off waits,
not failed without retry. -/
theorem retry_404_counterexample :
    retry_on_failure 3 1 2 (fun _ => fetchStatus 404) =
      (.error (.httpError 404), [1, 2], 3) ∧ (3 : Nat) ≠ 1 := by
  constructor
  · simp [retry_on_failure, retryGo, fetchStatus, isRetryable]
  · decide

/-- C5 (amended): the decorator retries every exception in its tuple
`(requests.RequestException, ConnectionError, TimeoutError)`; since
`raise_for_status` raises `HTTPError` — a `RequestException` — for all
of 4xx and 5xx, any such status is retried to exhaustion and the last
error re-raised, while an exception outside the tuple propagates after
a single attempt. -/
theorem retry_all_http_errors_retried :
    ∀ (maxR : Nat) (i b : ℚ) (status : Nat), 1 ≤ maxR → 400 ≤ status →
      (retry_on_failure maxR i b (fun _ => fetchStatus status)).1 =
        .error (.httpError status) ∧
      (retry_on_failure maxR i b (fun _ => fetchStatus status)).2.2 = maxR ∧
      (retry_on_failure maxR i b (fun _ => (.exc .otherError : Outcome Nat))).2.2 = 1 := by
  intro maxR i b status hm hs
  have hf : ∀ n, (fun _ : Nat => fetchStatus status) n = Outcome.exc (.httpError status) := by
    intro n
    simp [fetchStatus, hs]
  have h := retryGo_always_fail (.httpError status) rfl _ hf b maxR 0 i [] hm
  refine ⟨?_, ?_, ?_⟩
  · simp [retry_on_failure, h]
  · simp [retry_on_failure, h]
  · obtain ⟨r, rfl⟩ : ∃ r, maxR = r + 1 := ⟨maxR - 1, by omega⟩
    simp [retry_on_failure, retryGo, isRetryable]

/-- Concrete instance of `retry_all_http_errors_retried`: a constant
503 origin is attempted exactly `max_retries = 2` times, an exception
outside the tuple only once. -/
theorem retry_all_http_errors_retried_witness :
    (retry_on_failure 2 1 2 (fun _ => fetchStatus 503)).1 = .error (.httpError 503) ∧
    (retry_on_failure 2 1 2 (fun _ => fetchStatus 503)).2.2 = 2 ∧
    (retry_on_failure 2 1 2 (fun _ => (.exc .otherError : Outcome Nat))).2.2 = 1 :=
  retry_all_http_errors_retried 2 1 2 503 (by decide) (by decide)

/-- Counterexample to C6 as stated: with the defaults
(`initial_delay = 1.0`, `backoff_factor = 2.0`) and an origin failing
every attempt, the recorded waits are exactly `[1, 2]` — the pure
geometric sequence `initial_delay * backoff_factor ^ k` with the
additive noise identically zero; no jitter is ever applied. -/
theorem retry_no_jitter_counterexample :
    (retry_on_failure 3 1 2 (fun _ => fetchStatus 500)).2.1 = [1, 2] ∧
    (1 : ℚ) = 1 * 2 ^ (0 : Nat) ∧ (2 : ℚ) = 1 * 2 ^ (1 : Nat) := by
  refine ⟨?_, by norm_num, by norm_num⟩
  simp [retry_on_failure, retryGo, fetchStatus, isRetryable]

/-- C6 (amended): between consecutive attempts the decorator sleeps
exactly `initial_delay * backoff_factor ^ attempt`, deterministically:
the wait sequence of a run whose every attempt raises a retryable
exception is precisely the geometric sequence, with no random jitter
term. -/
theorem retry_delays_exact_backoff :
    ∀ (maxR : Nat) (i b : ℚ) (e : PyExc) (f : Nat → Outcome Nat),
      (∀ n, f n = .exc e) → isRetryable e = true →
      (retry_on_failure maxR i b f).2.1 =
        (List.range (maxR - 1)).map (fun k => i * b ^ k) := by
  intro maxR i b e f hf he
  cases maxR with
  | zero => simp [retry_on_failure, retryGo]
  | succ r =>
    have h := retryGo_always_fail e he f hf b (r + 1) 0 i [] (by omega)
    simp [retry_on_failure, h]

/-- Concrete instance of `retry_delays_exact_backoff`: four attempts of
an always-timing-out call sleep exactly `[1, 3, 9]` seconds. -/
theorem retry_delays_exact_backoff_witness :
    (retry_on_failure 4 1 3 (fun _ => (.exc .timeoutError : Outcome Nat))).2.1 =
      [(1 : ℚ), 3, 9] := by
  have h := retry_delays_exact_backoff 4 1 3 .timeoutError _ (fun _ => rfl) rfl
  rw [h]
  norm_num [List.range_succ]
